import Mathlib

/-!
Shallow embedding of the EUSTDD scheduling dashboard's transition/sync engine.

The repository contains two variants of the application:
* variant A: `src/src/types/schedule.ts` (types + main page component) together
  with the store in `src/unnamed/part_001` (zustand store, `count` counters,
  30-second unconditional pull);
* variant B ("v1"): `src/v1/src/app/page.tsx`, `src/v1/src/store/schedule-store.ts`,
  `src/v1/src/types/schedule.ts` (`number` counters, 3-second compare-and-replace
  pull, add-event validation).

Numbers are embedded as `Rat`/`Int` (JS numbers, no overflow relevant here);
`HH:MM` clock strings and `yyyy-MM-dd` date strings are embedded as `String`
and compared with the lexicographic order, exactly as the JS code compares
them with `<` / `<=`.
-/

/-- `TransitionStyle` from `src/src/types/schedule.ts` line 3. -/
inductive TransitionStyle where
  | static
  | fade
  | slideUp
  | slideLeft
  | verticalAutoScroll
  | gentleContinuousScroll
deriving DecidableEq, Repr, BEq

/-- `EventStatus` from `src/src/types/schedule.ts` line 1. -/
inductive EventStatus where
  | upcoming
  | ongoing
  | completed
deriving DecidableEq, Repr

/-- `StatusColors` from `src/src/types/schedule.ts`. -/
structure StatusColors where
  upcoming : String
  ongoing : String
  completed : String
deriving DecidableEq, Repr

/-- `Settings` record (variant A `Settings`, variant B `AppSettings`): both store
variants carry the same fourteen fields. `theme` is kept as a `String`. -/
structure Settings where
  pinEnabled : Bool
  pin : String
  passwordEnabled : Bool
  password : String
  passwordHint : String
  recoveryEmail : String
  failedAttempts : Int
  lockoutUntil : Option String
  theme : String
  transitionStyle : TransitionStyle
  transitionSpeed : String
  smoothScrollEnabled : Bool
  customTransitionSeconds : Rat
  statusColors : StatusColors
deriving DecidableEq, Repr

/-- `ScheduleEvent` of variant A (`src/src/types/schedule.ts` lines 7-15). -/
structure ScheduleEvent where
  id : String
  title : String
  dateStarted : String
  dateEnd : String
  timeStart : String
  timeEnd : String
  details : Option String
deriving DecidableEq, Repr

/-- `PersonnelStatus` of variant A (`src/src/types/schedule.ts` lines 17-23). -/
structure PersonnelStatus where
  id : String
  name : String
  type : String
  dateStart : String
  dateEnd : String
deriving DecidableEq, Repr

/-- `Project` of variant A (`src/src/types/schedule.ts` lines 25-29): the
counter field is named `count`. -/
structure Project where
  id : String
  name : String
  count : Int
deriving DecidableEq, Repr

/-- `ScheduleEvent` of variant B (`src/v1/src/types/schedule.ts` lines 14-22). -/
structure ScheduleEventV1 where
  id : String
  title : String
  dateStarted : String
  timeStart : String
  timeEnd : String
  details : Option String
  createdAt : String
deriving DecidableEq, Repr

/-- `PersonnelStatus` of variant B (`src/v1/src/types/schedule.ts` lines 28-36). -/
structure PersonnelStatusV1 where
  id : String
  name : String
  type : String
  dateStart : String
  dateEnd : String
  location : Option String
  createdAt : String
deriving DecidableEq, Repr

/-- `Project` of variant B (`src/v1/src/types/schedule.ts` lines 39-44): the
counter field is named `number`. -/
structure ProjectV1 where
  id : String
  name : String
  number : Int
  createdAt : String
deriving DecidableEq, Repr

/-- `getEventStatus` from `src/src/types/schedule.ts` lines 113-130. The
current wall clock is passed in explicitly as the pair of the formatted
current date (`yyyy-MM-dd`) and current time (`HH:mm`); the source obtains
them via `format(now, ...)`. Clock strings are compared lexicographically,
exactly like the JS `<` / `<=` operators on strings. -/
def getEventStatus (today : String) (currentTime : String) (event : ScheduleEvent) : EventStatus :=
  if event.dateStarted ≠ today then
    .upcoming
  else if currentTime < event.timeStart then
    .upcoming
  else if event.timeStart ≤ currentTime ∧ currentTime ≤ event.timeEnd then
    .ongoing
  else
    .completed

/-- JS `String.prototype.split(sep)` on a one-character separator, over the
character list of the string (`String.splitOn` itself does not reduce in the
kernel). `splitCharList ':' "12:03".data = [['1','2'], ['0','3']]`. -/
def splitCharList (sep : Char) : List Char → List (List Char)
  | [] => [[]]
  | c :: cs =>
      match splitCharList sep cs with
      | [] => if c = sep then [[], []] else [[c]]
      | h :: t => if c = sep then [] :: h :: t else (c :: h) :: t

/-- JS `Number(...)` on a piece of a `"HH:MM"` string: the decimal value of its
digit characters (the pieces of a valid time input are pure digit strings). -/
def digitsToNat (l : List Char) : Nat :=
  l.foldl (fun acc c => 10 * acc + (c.toNat - '0'.toNat)) 0

/-- Minutes after midnight denoted by a `"HH:MM"` string, as computed by
`event.timeStart.split(':').map(Number)` followed by `setHours(hours, minutes, 0, 0)`
in `getUpcomingEvents` (`src/src/types/schedule.ts` lines 153-155). -/
def timeToMinutes (t : String) : Int :=
  match splitCharList ':' t.data with
  | h :: m :: _ => 60 * (digitsToNat h : Int) + (digitsToNat m : Int)
  | _ => 0

/-- JS `String.prototype.trim()`: strip leading and trailing whitespace
(`String.trim` itself does not reduce in the kernel). -/
def jsTrim (s : String) : String :=
  ⟨((s.data.dropWhile Char.isWhitespace).reverse.dropWhile Char.isWhitespace).reverse⟩

/-- `differenceInMinutes(eventStartTime, now)` where `eventStartTime` is today
at `timeStart` with seconds and milliseconds zeroed, and `nowMs` is the current
time as milliseconds after midnight. date-fns `differenceInMinutes` truncates
the quotient toward zero, which is `Int.tdiv`. -/
def minutesUntilStart (timeStart : String) (nowMs : Int) : Int :=
  Int.tdiv (timeToMinutes timeStart * 60000 - nowMs) 60000

/-- `EventNotification` from `src/src/types/schedule.ts` lines 140-143. -/
structure EventNotification where
  event : ScheduleEvent
  minutesUntil : Int
deriving DecidableEq, Repr

/-- `getUpcomingEvents` from `src/src/types/schedule.ts` lines 146-168: keep
today's events whose truncated minute distance to their start time is in
`(0, minutesBefore]`, then sort ascending by `minutesUntil` (the JS
`sort((a, b) => a.minutesUntil - b.minutesUntil)` is a stable ascending sort,
embedded as insertion sort). `today` is the current date string and `nowMs`
the current time as milliseconds after midnight. -/
def getUpcomingEvents (events : List ScheduleEvent) (today : String) (nowMs : Int)
    (minutesBefore : Int := 5) : List EventNotification :=
  let notifications := events.filterMap (fun event =>
    if event.dateStarted = today then
      let diffMinutes := minutesUntilStart event.timeStart nowMs
      if diffMinutes > 0 ∧ diffMinutes ≤ minutesBefore then
        some ⟨event, diffMinutes⟩
      else
        none
    else
      none)
  notifications.insertionSort (fun a b => a.minutesUntil ≤ b.minutesUntil)

/-- One run of `checkNotifications` (`src/src/types/schedule.ts` lines 2293-2330)
restricted to its state result: `getUpcomingEvents(todayEvents, 5)` filtered by
`!dismissedNotifications.has(n.event.id)` gives `newNotifications`, which is
stored into `activeNotifications`. The audio side effect is not modelled. -/
def checkNotificationsEval (todayEvents : List ScheduleEvent) (today : String)
    (nowMs : Int) (dismissed : List String) : List EventNotification :=
  (getUpcomingEvents todayEvents today nowMs 5).filter
    (fun n => ¬ dismissed.contains n.event.id)

/-- `dismissNotification` (`src/src/types/schedule.ts` lines 2336-2339):
`new Set([...prev, eventId])` only ever adds ids (a JS `Set` ignores an element
already present). -/
def dismissNotification (dismissed : List String) (eventId : String) : List String :=
  if dismissed.contains eventId then dismissed else dismissed ++ [eventId]

/-- `getTransitionSpeed` from `src/src/types/schedule.ts` lines 171-180
(identical in `src/v1/src/app/page.tsx` lines 117-126): enter-animation
duration in seconds for a speed tier. -/
def getTransitionSpeed (speed : String) (customSeconds : Rat) : Rat :=
  match speed with
  | "verySlow" => 1.5
  | "slow" => 1
  | "normal" => 0.5
  | "fast" => 0.25
  | "custom" => customSeconds
  | _ => 0.5

/-- `getPageDisplayDuration` from `src/src/types/schedule.ts` lines 183-192
(identical in `src/v1/src/app/page.tsx` lines 129-138): page-dwell interval in
milliseconds for a speed tier; note the `custom` tier is a fixed 3000 ms and
the configured custom seconds are not consulted. -/
def getPageDisplayDuration (speed : String) : Nat :=
  match speed with
  | "verySlow" => 8000
  | "slow" => 5000
  | "normal" => 3000
  | "fast" => 1500
  | "custom" => 3000
  | _ => 3000

/-- `getScrollSpeed` from `src/src/types/schedule.ts` lines 195-204
(identical in `src/v1/src/app/page.tsx` lines 141-150): continuous-scroll
speed in pixels per second for a speed tier. -/
def getScrollSpeed (speed : String) : Rat :=
  match speed with
  | "verySlow" => 15
  | "slow" => 25
  | "normal" => 40
  | "fast" => 60
  | "custom" => 40
  | _ => 40

/-- A framer-motion transition record `{ duration }`. -/
structure MotionTransition where
  duration : Rat
deriving DecidableEq, Repr

/-- One variant state of `getTransitionVariants`: opacity, x/y offsets
(0 when the source leaves them unspecified) and the optional transition. -/
structure MotionState where
  opacity : Rat
  x : Rat
  y : Rat
  transition : Option MotionTransition
deriving DecidableEq, Repr

/-- The `initial`/`animate`/`exit` triple returned by `getTransitionVariants`. -/
structure TransitionVariants where
  initial : MotionState
  animate : MotionState
  exit : MotionState
deriving DecidableEq, Repr

/-- `getTransitionVariants` from `src/src/types/schedule.ts` lines 401-431:
enter animation runs for `duration = speed` seconds and the exit animation for
`duration / 2`; the `static`/default branch has no transitions. -/
def getTransitionVariants (style : TransitionStyle) (speed : Rat) : TransitionVariants :=
  let duration := speed
  match style with
  | .fade =>
      ⟨⟨0, 0, 0, none⟩, ⟨1, 0, 0, some ⟨duration⟩⟩, ⟨0, 0, 0, some ⟨duration / 2⟩⟩⟩
  | .slideUp =>
      ⟨⟨0, 0, 20, none⟩, ⟨1, 0, 0, some ⟨duration⟩⟩, ⟨0, 0, -20, some ⟨duration / 2⟩⟩⟩
  | .slideLeft =>
      ⟨⟨0, 20, 0, none⟩, ⟨1, 0, 0, some ⟨duration⟩⟩, ⟨0, -20, 0, some ⟨duration / 2⟩⟩⟩
  | _ =>
      ⟨⟨1, 0, 0, none⟩, ⟨1, 0, 0, none⟩, ⟨1, 0, 0, none⟩⟩

/-- Result record of one `checkOverflow` run inside `useOverflowTransition`. -/
structure OverflowMeasure where
  hasOverflow : Bool
  itemsPerPage : Int
deriving DecidableEq, Repr

/-- `checkOverflow` from `useOverflowTransition` (`src/src/types/schedule.ts`
lines 223-239, identical in `src/v1/src/app/page.tsx` lines 170-188).
`containerHeight` is `containerRef.current.clientHeight`;
`measuredContentHeight` is `some` of the `[data-content-measure]` element's
`scrollHeight` when that element exists and `none` otherwise;
`itemsLength` is `items.length`. -/
def checkOverflow (itemsLength : Nat) (itemHeight : Rat) (containerHeight : Rat)
    (measuredContentHeight : Option Rat) : OverflowMeasure :=
  let calculatedItemsPerPage : Int := Int.floor (containerHeight / itemHeight)
  let itemsPerPage := max 1 calculatedItemsPerPage
  match measuredContentHeight with
  | some actualContentHeight =>
      ⟨decide (actualContentHeight > containerHeight), itemsPerPage⟩
  | none =>
      let availableHeight := containerHeight - 12
      let totalItemHeight := (itemsLength : Rat) * itemHeight
      ⟨decide (totalItemHeight > availableHeight), itemsPerPage⟩

/-- `totalPages = Math.max(1, Math.ceil(items.length / itemsPerPage))`
(`src/src/types/schedule.ts` line 263). For natural numbers with
`itemsPerPage > 0`, `Math.ceil(a / b) = (a + b - 1) / b` in truncating
natural division. -/
def totalPagesCalc (itemsLength itemsPerPage : Nat) : Nat :=
  max 1 ((itemsLength + itemsPerPage - 1) / itemsPerPage)

/-- Guard of the paged-interval effect (`src/src/types/schedule.ts` lines
292-295): it runs only with overflow present, one of the three paged styles
selected, and more than one page. -/
def pagedModeActive (hasOverflow : Bool) (style : TransitionStyle) (totalPages : Nat) : Bool :=
  hasOverflow &&
    (style == .fade || style == .slideUp || style == .slideLeft) &&
    decide (1 < totalPages)

/-- Events observed by the `currentPage` state of `useOverflowTransition`:
a paged-interval timer tick (line 304), a change of the configured transition
style (effect at lines 283-290) and a change of `items.length` (effect at
lines 382-389). -/
inductive PageEvent where
  | pagedTick
  | styleChange
  | lengthChange
deriving DecidableEq, Repr

/-- Transition of `currentPage` for each event: the interval tick performs
`setCurrentPage((prev) => (prev + 1) % totalPages)`; both reset effects
perform `setCurrentPage(0)`. -/
def overflowPageStep (totalPages : Nat) : PageEvent → Nat → Nat
  | .pagedTick, prev => (prev + 1) % totalPages
  | .styleChange, _ => 0
  | .lengthChange, _ => 0

/-- One `animate` frame of the `gentleContinuousScroll` loop
(`src/src/types/schedule.ts` lines 326-343) as a function of the previous
scroll offset and the elapsed time `delta` (ms) since the previous frame:
advance by `scrollSpeed * delta / 1000` and subtract `singleSetHeight` once
when the result reaches or exceeds it. -/
def gentleScrollFrame (scrollSpeed singleSetHeight : Rat) (pos delta : Rat) : Rat :=
  let advanced := pos + scrollSpeed * delta / 1000
  if advanced ≥ singleSetHeight then advanced - singleSetHeight else advanced

/-- The `gentleContinuousScroll` loop driven by a list of `requestAnimationFrame`
timestamps, starting from `lastTimeRef.current = 0` and
`scrollPositionRef.current = 0` as the effect sets them: a frame with
`lastTimeRef.current` still falsy (0) first sets it to its own timestamp
(hence `delta = 0`); every frame then stores its timestamp and steps the
offset with `gentleScrollFrame`. Returns `(lastTime, offset)`. -/
def gentleScrollRun (scrollSpeed singleSetHeight : Rat) (timestamps : List Rat) : Rat × Rat :=
  timestamps.foldl
    (fun acc timestamp =>
      let lastTime := if acc.1 = 0 then timestamp else acc.1
      let delta := timestamp - lastTime
      (timestamp, gentleScrollFrame scrollSpeed singleSetHeight acc.2 delta))
    (0, 0)

/-- The same loop indexed directly by the per-frame elapsed times. -/
def gentleScrollRunDeltas (scrollSpeed singleSetHeight : Rat) (deltas : List Rat) : Rat :=
  deltas.foldl (gentleScrollFrame scrollSpeed singleSetHeight) 0

/-- `incrementProjectCount` from the variant-A store (`src/unnamed/part_001`
lines 198-205); `incrementProject` in `src/v1/src/store/schedule-store.ts`
lines 311-318 is the same map with the field named `number`. -/
def incrementProjectCount (id : String) (projects : List Project) : List Project :=
  projects.map (fun p => if p.id = id then { p with count := p.count + 1 } else p)

/-- `decrementProjectCount` from the variant-A store (`src/unnamed/part_001`
lines 207-214): `Math.max(0, p.count - 1)`; `decrementProject` in
`src/v1/src/store/schedule-store.ts` lines 320-327 is the same map with the
field named `number`. -/
def decrementProjectCount (id : String) (projects : List Project) : List Project :=
  projects.map (fun p => if p.id = id then { p with count := max 0 (p.count - 1) } else p)

/-- `defaultSettings` of the v1 store (`src/v1/src/store/schedule-store.ts`
lines 10-31). -/
def defaultSettings : Settings where
  pinEnabled := false
  pin := ""
  passwordEnabled := false
  password := ""
  passwordHint := ""
  recoveryEmail := ""
  failedAttempts := 0
  lockoutUntil := none
  theme := "light"
  transitionStyle := .static
  transitionSpeed := "normal"
  smoothScrollEnabled := true
  customTransitionSeconds := 3
  statusColors := ⟨"#3b82f6", "#22c55e", "#9ca3af"⟩

/-- `defaultSettings` of the variant-A store (`src/unnamed/part_001`
lines 57-78). -/
def defaultSettingsA : Settings where
  pinEnabled := false
  pin := ""
  passwordEnabled := false
  password := ""
  passwordHint := ""
  recoveryEmail := ""
  failedAttempts := 0
  lockoutUntil := none
  theme := "system"
  transitionStyle := .static
  transitionSpeed := "normal"
  smoothScrollEnabled := true
  customTransitionSeconds := 3
  statusColors := ⟨"#3b82f6", "#22c55e", "#6b7280"⟩

/-- A parsed `data.settings` object with possibly missing keys, as delivered by
`response.json()`; spreading it over the defaults reads each present key. -/
structure SettingsPatch where
  pinEnabled : Option Bool
  pin : Option String
  passwordEnabled : Option Bool
  password : Option String
  passwordHint : Option String
  recoveryEmail : Option String
  failedAttempts : Option Int
  lockoutUntil : Option (Option String)
  theme : Option String
  transitionStyle : Option TransitionStyle
  transitionSpeed : Option String
  smoothScrollEnabled : Option Bool
  customTransitionSeconds : Option Rat
  statusColors : Option StatusColors
deriving DecidableEq, Repr

/-- The JS shallow spread `{ ...base, ...patch }` over settings objects: each
key present in the patch overrides the base; spreading `undefined`
(`patch = none`) leaves the base unchanged. -/
def mergeSettings (base : Settings) (patch : Option SettingsPatch) : Settings :=
  match patch with
  | none => base
  | some p =>
      { pinEnabled := p.pinEnabled.getD base.pinEnabled
        pin := p.pin.getD base.pin
        passwordEnabled := p.passwordEnabled.getD base.passwordEnabled
        password := p.password.getD base.password
        passwordHint := p.passwordHint.getD base.passwordHint
        recoveryEmail := p.recoveryEmail.getD base.recoveryEmail
        failedAttempts := p.failedAttempts.getD base.failedAttempts
        lockoutUntil := p.lockoutUntil.getD base.lockoutUntil
        theme := p.theme.getD base.theme
        transitionStyle := p.transitionStyle.getD base.transitionStyle
        transitionSpeed := p.transitionSpeed.getD base.transitionSpeed
        smoothScrollEnabled := p.smoothScrollEnabled.getD base.smoothScrollEnabled
        customTransitionSeconds := p.customTransitionSeconds.getD base.customTransitionSeconds
        statusColors := p.statusColors.getD base.statusColors }

/-- The v1 store state together with the module-level `lastServerUpdate`
serialization marker (`src/v1/src/store/schedule-store.ts` line 124). -/
structure SyncStateV1 where
  events : List ScheduleEventV1
  personnelStatuses : List PersonnelStatusV1
  projects : List ProjectV1
  settings : Settings
  lastServerUpdate : String
deriving DecidableEq, Repr

/-- A parsed remote document as consumed by the v1 polling loop; each
collection may be missing (`data.events || []`). -/
structure RemoteData where
  events : Option (List ScheduleEventV1)
  personnelStatuses : Option (List PersonnelStatusV1)
  projects : Option (List ProjectV1)
  settings : Option SettingsPatch
deriving DecidableEq, Repr

/-- One successful pull of the v1 polling loop `startAutoSync`
(`src/v1/src/store/schedule-store.ts` lines 161-177): serialize the fetched
document, compare with `lastServerUpdate`, and only when they differ replace
the four collections (missing collections as `[]`, settings spread over the
defaults) and update the marker. `serialize` stands for `JSON.stringify`. -/
def autoSyncTick (serialize : RemoteData → String) (s : SyncStateV1) (data : RemoteData) :
    SyncStateV1 :=
  let serverUpdate := serialize data
  if serverUpdate ≠ s.lastServerUpdate then
    { events := data.events.getD []
      personnelStatuses := data.personnelStatuses.getD []
      projects := data.projects.getD []
      settings := mergeSettings defaultSettings data.settings
      lastServerUpdate := serverUpdate }
  else
    s

/-- The variant-A store state (`src/unnamed/part_001` lines 125-130). -/
structure StoreStateA where
  events : List ScheduleEvent
  personnel : List PersonnelStatus
  projects : List Project
  settings : Settings
deriving DecidableEq, Repr

/-- A parsed remote document as consumed by the variant-A `loadFromServer`. -/
structure RemoteDataA where
  events : Option (List ScheduleEvent)
  personnel : Option (List PersonnelStatus)
  projects : Option (List Project)
  settings : Option Settings
deriving DecidableEq, Repr

/-- One successful pull of the variant-A store (`src/unnamed/part_001`
lines 248-265, invoked by `startAutoSync` every 30 seconds at lines 285-290):
replace all four collections with the remote values unconditionally — there is
no last-seen serialization to compare against (`data.settings || defaultSettings`
falls back to the defaults only when the key is missing). -/
def loadFromServerApply (data : RemoteDataA) (s : StoreStateA) : StoreStateA :=
  { s with
    events := data.events.getD []
    personnel := data.personnel.getD []
    projects := data.projects.getD []
    settings := data.settings.getD defaultSettingsA }

/-- `addEvent` of the variant-A store (`src/unnamed/part_001` lines 133-138). -/
def addEventA (event : ScheduleEvent) (s : StoreStateA) : StoreStateA :=
  { s with events := s.events ++ [event] }

/-- `handleSubmit` of the v1 `AddEventModal` (`src/v1/src/app/page.tsx` lines
1554-1593) restricted to its validation and store effect: returns the error
message set by `setError` (or `none`) paired with the resulting event list.
A successful submit calls the v1 store's `addEvent`, which appends the payload
extended with a generated `id` and `createdAt` (`schedule-store.ts` lines
225-235); these two generated strings are passed in as parameters. -/
def addEventHandleSubmitV1 (title dateStarted timeStart timeEnd details : String)
    (isAllDay : Bool) (newId createdAt : String) (events : List ScheduleEventV1) :
    Option String × List ScheduleEventV1 :=
  if jsTrim title = "" then
    (some "Event title is required", events)
  else if ¬ isAllDay ∧ timeEnd ≤ timeStart then
    (some "End time must be after start time", events)
  else
    (none,
      events ++
        [{ id := newId
           title := jsTrim title
           dateStarted := dateStarted
           timeStart := timeStart
           timeEnd := timeEnd
           details := if jsTrim details = "" then none else some (jsTrim details)
           createdAt := createdAt }])

/-- `handleSubmit` of the variant-A `AddEventModal`
(`src/src/types/schedule.ts` lines 1462-1479): only presence of title, start
date and the two times is checked (no end-after-start validation); a passing
submit calls the variant-A store's `addEvent`, which appends the event. The
generated `id` (`Date.now().toString()`) is passed in as a parameter. -/
def addEventHandleSubmitA (title dateStarted dateEnd timeStart timeEnd details : String)
    (newId : String) (events : List ScheduleEvent) : List ScheduleEvent :=
  if title = "" ∨ dateStarted = "" ∨ timeStart = "" ∨ timeEnd = "" then
    events
  else
    events ++
      [{ id := newId
         title := title
         dateStarted := dateStarted
         dateEnd := if dateEnd = "" then dateStarted else dateEnd
         timeStart := timeStart
         timeEnd := timeEnd
         details := some details }]

/-- C5: for every item list and container height, `checkOverflow` computes
`itemsPerPage = max(1, floor(containerHeight / itemHeight))`; in particular it
is at least 1, and equals 1 whenever the container is shorter than one item. -/
theorem checkOverflow_itemsPerPage_spec (itemsLength : Nat) (itemHeight containerHeight : Rat)
    (measured : Option Rat) :
    (checkOverflow itemsLength itemHeight containerHeight measured).itemsPerPage
        = max 1 (Int.floor (containerHeight / itemHeight))
    ∧ 1 ≤ (checkOverflow itemsLength itemHeight containerHeight measured).itemsPerPage
    ∧ (0 < itemHeight → containerHeight < itemHeight →
        (checkOverflow itemsLength itemHeight containerHeight measured).itemsPerPage = 1) := by
  have hval : (checkOverflow itemsLength itemHeight containerHeight measured).itemsPerPage
      = max 1 (Int.floor (containerHeight / itemHeight)) := by
    cases measured <;> rfl
  refine ⟨hval, ?_, ?_⟩
  · rw [hval]; exact le_max_left _ _
  · intro hpos hlt
    rw [hval]
    have hq : containerHeight / itemHeight < 1 := (div_lt_one hpos).mpr hlt
    have hfl : Int.floor (containerHeight / itemHeight) < 1 := by
      exact_mod_cast Int.floor_lt.mpr (by exact_mod_cast hq)
    exact max_eq_left (by omega)

/-- Witness for C5 at a concrete input: a 20-pixel container with 32-pixel
items still yields one item per page. -/
theorem checkOverflow_itemsPerPage_spec_witness :
    (checkOverflow 3 32 20 none).itemsPerPage = 1 :=
  (checkOverflow_itemsPerPage_spec 3 32 20 none).2.2 (by norm_num) (by norm_num)

/-- C6: with a measurement node, `hasOverflow` holds iff the measured content
height exceeds the container's visible height; without one, iff
`itemCount * itemHeight > containerHeight - 12`. -/
theorem checkOverflow_hasOverflow_spec (itemsLength : Nat) (itemHeight containerHeight h : Rat) :
    ((checkOverflow itemsLength itemHeight containerHeight (some h)).hasOverflow = true
        ↔ containerHeight < h)
    ∧ ((checkOverflow itemsLength itemHeight containerHeight none).hasOverflow = true
        ↔ containerHeight - 12 < (itemsLength : Rat) * itemHeight) := by
  constructor <;> simp [checkOverflow]


/-- C10: `getEventStatus` classifies every event whose start date differs from
the current date as `upcoming` (past dates included); `ongoing` and `completed`
can only arise for events whose start date is today. -/
theorem getEventStatus_otherday_upcoming (today currentTime : String) (event : ScheduleEvent) :
    (event.dateStarted ≠ today → getEventStatus today currentTime event = .upcoming)
    ∧ (getEventStatus today currentTime event ≠ .upcoming → event.dateStarted = today) := by
  constructor
  · intro hne
    simp [getEventStatus, hne]
  · intro hst
    by_contra hne
    exact hst (by simp [getEventStatus, hne])

/-- Witness for C10: an event dated yesterday (2024-05-06, checked on
2024-05-07 at 12:00, after its end time) is still classified `upcoming`. -/
theorem getEventStatus_otherday_upcoming_witness :
    getEventStatus "2024-05-07" "12:00"
      ⟨"e1", "Old meeting", "2024-05-06", "2024-05-06", "09:00", "10:00", none⟩ = .upcoming :=
  (getEventStatus_otherday_upcoming "2024-05-07" "12:00"
      ⟨"e1", "Old meeting", "2024-05-06", "2024-05-06", "09:00", "10:00", none⟩).1 (by decide)

/-- C3: the page-dwell interval per speed tier is 8000/5000/3000/1500 ms with
`custom` fixed at 3000 ms (the configured custom seconds are not consulted),
while the enter-animation duration is 1.5/1.0/0.5/0.25 s with `custom` equal to
the configured seconds, and for every paged style the exit duration is half the
enter duration. -/
theorem transitionTiming_spec :
    (getPageDisplayDuration "verySlow" = 8000 ∧ getPageDisplayDuration "slow" = 5000
      ∧ getPageDisplayDuration "normal" = 3000 ∧ getPageDisplayDuration "fast" = 1500
      ∧ getPageDisplayDuration "custom" = 3000)
    ∧ (∀ c : Rat, getTransitionSpeed "verySlow" c = 3 / 2 ∧ getTransitionSpeed "slow" c = 1
        ∧ getTransitionSpeed "normal" c = 1 / 2 ∧ getTransitionSpeed "fast" c = 1 / 4
        ∧ getTransitionSpeed "custom" c = c)
    ∧ (∀ (style : TransitionStyle) (d : Rat),
        style = .fade ∨ style = .slideUp ∨ style = .slideLeft →
          (getTransitionVariants style d).animate.transition = some ⟨d⟩
          ∧ (getTransitionVariants style d).exit.transition = some ⟨d / 2⟩) := by
  refine ⟨⟨rfl, rfl, rfl, rfl, rfl⟩, ?_, ?_⟩
  · intro c
    refine ⟨?_, rfl, ?_, ?_, rfl⟩ <;> norm_num [getTransitionSpeed]
  · rintro style d (rfl | rfl | rfl) <;> exact ⟨rfl, rfl⟩

/-- Witness for C3: for the `fade` style at enter duration 1 s, the exit
animation lasts 0.5 s. -/
theorem transitionTiming_spec_witness :
    (getTransitionVariants .fade 1).exit.transition = some ⟨1 / 2⟩ :=
  (transitionTiming_spec.2.2 .fade 1 (Or.inl rfl)).2

/-- C8: project counters stay non-negative under the counter operations;
a matched increment adds exactly 1, a matched decrement at 0 leaves 0
(floor at zero) and at a positive counter subtracts exactly 1; unmatched
projects are untouched. -/
theorem projectCounter_spec (id : String) (ps : List Project) :
    ((∀ p ∈ ps, 0 ≤ p.count) →
        (∀ q ∈ incrementProjectCount id ps, 0 ≤ q.count)
        ∧ (∀ q ∈ decrementProjectCount id ps, 0 ≤ q.count))
    ∧ (∀ (i : Nat) (p : Project), ps[i]? = some p →
        (incrementProjectCount id ps)[i]?
            = some (if p.id = id then { p with count := p.count + 1 } else p)
        ∧ (p.id = id → p.count = 0 →
            (decrementProjectCount id ps)[i]? = some { p with count := 0 })
        ∧ (p.id = id → 0 < p.count →
            (decrementProjectCount id ps)[i]? = some { p with count := p.count - 1 })
        ∧ (p.id ≠ id → (decrementProjectCount id ps)[i]? = some p)) := by
  constructor
  · intro hnn
    constructor <;> intro q hq
    · obtain ⟨p, hp, rfl⟩ := List.mem_map.mp hq
      by_cases hid : p.id = id
      · rw [if_pos hid]
        show 0 ≤ p.count + 1
        have := hnn p hp
        omega
      · rw [if_neg hid]
        exact hnn p hp
    · obtain ⟨p, hp, rfl⟩ := List.mem_map.mp hq
      by_cases hid : p.id = id
      · rw [if_pos hid]
        exact le_max_left _ _
      · rw [if_neg hid]
        exact hnn p hp
  · intro i p hp
    refine ⟨?_, ?_, ?_, ?_⟩
    · simp [incrementProjectCount, List.getElem?_map, hp]
    · intro hid hzero
      have hmax : max 0 (p.count - 1) = 0 := max_eq_left (by omega)
      simp [decrementProjectCount, List.getElem?_map, hp, hid, hmax]
    · intro hid hpos
      have hmax : max 0 (p.count - 1) = p.count - 1 := max_eq_right (by omega)
      simp [decrementProjectCount, List.getElem?_map, hp, hid, hmax]
    · intro hid
      simp [decrementProjectCount, List.getElem?_map, hp, hid]

/-- Witness for C8: decrementing the single project with counter 0 leaves the
counter at 0. -/
theorem projectCounter_spec_witness :
    (decrementProjectCount "p1" [Project.mk "p1" "Website Redesign" 0])[0]?
      = some (Project.mk "p1" "Website Redesign" 0) :=
  ((projectCounter_spec "p1" [Project.mk "p1" "Website Redesign" 0]).2 0
      (Project.mk "p1" "Website Redesign" 0) rfl).2.1 rfl rfl

/-- C2: while the paged-interval effect is active (overflow, a paged style and
more than one page), each timer tick maps `currentPage` to
`(currentPage + 1) % totalPages` — on the reachable pages this is the direct
successor, wrapping from `totalPages - 1` to 0 — so starting from 0 the page
after `k` ticks is `k % totalPages` (the pages are visited strictly in cyclic
order without skips); a style change or a list-length change resets the page
to 0. -/
theorem pagedCycle_spec (hasOverflow : Bool) (style : TransitionStyle) (totalPages : Nat)
    (hactive : pagedModeActive hasOverflow style totalPages = true) :
    (∀ prev, overflowPageStep totalPages .pagedTick prev = (prev + 1) % totalPages)
    ∧ (∀ prev, prev < totalPages →
        overflowPageStep totalPages .pagedTick prev
          = if prev + 1 = totalPages then 0 else prev + 1)
    ∧ (∀ k, (fun p => overflowPageStep totalPages .pagedTick p)^[k] 0 = k % totalPages)
    ∧ (∀ prev, overflowPageStep totalPages .styleChange prev = 0)
    ∧ (∀ prev, overflowPageStep totalPages .lengthChange prev = 0) := by
  have htp : 1 < totalPages := by
    simp only [pagedModeActive, Bool.and_eq_true, decide_eq_true_eq] at hactive
    exact hactive.2
  refine ⟨fun prev => rfl, ?_, ?_, fun prev => rfl, fun prev => rfl⟩
  · intro prev hlt
    show (prev + 1) % totalPages = _
    split_ifs with heq
    · rw [heq, Nat.mod_self]
    · exact Nat.mod_eq_of_lt (by omega)
  · intro k
    induction k with
    | zero => simp
    | succ k ih =>
        rw [Function.iterate_succ_apply', ih]
        show (k % totalPages + 1) % totalPages = (k + 1) % totalPages
        conv_rhs => rw [Nat.add_mod, Nat.mod_eq_of_lt htp]

/-- Witness for C2: with overflow, the `fade` style and
`totalPages = max(1, ceil(25 / 10)) = 3` pages, four ticks from page 0 land on
page `4 % 3 = 1`. -/
theorem pagedCycle_spec_witness :
    (fun p => overflowPageStep (totalPagesCalc 25 10) .pagedTick p)^[4] 0
      = 4 % totalPagesCalc 25 10 :=
  ((pagedCycle_spec true .fade (totalPagesCalc 25 10) (by decide)).2.2.1) 4

/-- Helper: one `gentleContinuousScroll` frame keeps the offset in
`[0, singleSetHeight)` provided the frame's advance is at most
`singleSetHeight`. -/
theorem gentleScrollFrame_bounds (speed H pos delta : Rat)
    (hadv0 : 0 ≤ speed * delta / 1000) (hadvH : speed * delta / 1000 ≤ H)
    (hpos0 : 0 ≤ pos) (hposH : pos < H) :
    0 ≤ gentleScrollFrame speed H pos delta ∧ gentleScrollFrame speed H pos delta < H := by
  dsimp only [gentleScrollFrame]
  split_ifs with hwrap
  · constructor <;> [linarith; linarith]
  · constructor <;> [linarith; linarith]

/-- Helper: the frame-driven fold preserves the `[0, singleSetHeight)`
invariant. -/
theorem gentleScrollFold_bounds (speed H : Rat) (deltas : List Rat)
    (hd : ∀ d ∈ deltas, 0 ≤ speed * d / 1000 ∧ speed * d / 1000 ≤ H) :
    ∀ pos : Rat, 0 ≤ pos → pos < H →
      0 ≤ deltas.foldl (gentleScrollFrame speed H) pos
      ∧ deltas.foldl (gentleScrollFrame speed H) pos < H := by
  induction deltas with
  | nil => intro pos h0 h1; exact ⟨h0, h1⟩
  | cons d ds ih =>
      intro pos h0 h1
      have hdd := hd d (List.mem_cons_self d ds)
      have hstep := gentleScrollFrame_bounds speed H pos d hdd.1 hdd.2 h0 h1
      exact ih (fun x hx => hd x (List.mem_cons_of_mem d hx)) _ hstep.1 hstep.2

/-- C4 (amended): provided every frame's advance `speed * delta / 1000` lies in
`[0, singleSetHeight]`, the scroll offset produced by the animation loop stays
in `[0, singleSetHeight)`; each frame advances the offset by exactly
`speed * delta / 1000`, and a wrapping frame ends at exactly
`oldOffset + advance - singleSetHeight` (a single exact subtraction, no
drift). -/
theorem gentleScroll_spec (speed H : Rat) (deltas : List Rat)
    (hH : 0 < H)
    (hd : ∀ d ∈ deltas, 0 ≤ speed * d / 1000 ∧ speed * d / 1000 ≤ H) :
    (0 ≤ gentleScrollRunDeltas speed H deltas ∧ gentleScrollRunDeltas speed H deltas < H)
    ∧ (∀ pos delta : Rat, H ≤ pos + speed * delta / 1000 →
        gentleScrollFrame speed H pos delta = pos + speed * delta / 1000 - H)
    ∧ (∀ pos delta : Rat, pos + speed * delta / 1000 < H →
        gentleScrollFrame speed H pos delta = pos + speed * delta / 1000) := by
  refine ⟨gentleScrollFold_bounds speed H deltas hd 0 le_rfl hH, ?_, ?_⟩
  · intro pos delta hge
    dsimp only [gentleScrollFrame]
    rw [if_pos hge]
  · intro pos delta hlt
    dsimp only [gentleScrollFrame]
    rw [if_neg (not_le.mpr hlt)]

/-- Witness for C4 (amended): at the `normal` scroll speed (40 px/s) over a
100-px single set, two 16 ms frames leave the offset at 1.28 px, inside
`[0, 100)`. -/
theorem gentleScroll_spec_witness :
    0 ≤ gentleScrollRunDeltas (getScrollSpeed "normal") 100 [16, 16]
    ∧ gentleScrollRunDeltas (getScrollSpeed "normal") 100 [16, 16] < 100 :=
  (gentleScroll_spec (getScrollSpeed "normal") 100 [16, 16] (by norm_num)
      (by
        intro d hd
        simp only [List.mem_cons, List.not_mem_nil, or_false] at hd
        rcases hd with rfl | rfl <;> norm_num [getScrollSpeed])).1

/-- C4 (counterexample): the wrap subtracts `singleSetHeight` only once, so a
single frame whose elapsed time is large enough (here 10 s at 40 px/s over a
100-px single set) leaves the offset at 300, outside `[0, singleSetHeight)`:
the unconditional invariant claimed does not hold. -/
theorem gentleScroll_offset_escapes :
    (gentleScrollRun (getScrollSpeed "normal") 100 [1000, 11000]).2 = 300
    ∧ ¬ ((gentleScrollRun (getScrollSpeed "normal") 100 [1000, 11000]).2 < 100) := by
  constructor <;> norm_num [gentleScrollRun, gentleScrollFrame, getScrollSpeed]

/-- Helper: membership in `getUpcomingEvents` is exactly the source's filter
condition (sorting permutes but does not change membership). -/
theorem mem_getUpcomingEvents (events : List ScheduleEvent) (today : String) (nowMs : Int)
    (minutesBefore : Int) (n : EventNotification) :
    n ∈ getUpcomingEvents events today nowMs minutesBefore ↔
      n.event ∈ events ∧ n.event.dateStarted = today
      ∧ n.minutesUntil = minutesUntilStart n.event.timeStart nowMs
      ∧ 0 < n.minutesUntil ∧ n.minutesUntil ≤ minutesBefore := by
  obtain ⟨ev, mu⟩ := n
  dsimp only
  unfold getUpcomingEvents
  rw [(List.perm_insertionSort _ _).mem_iff, List.mem_filterMap]
  constructor
  · rintro ⟨e, he, hf⟩
    by_cases hd : e.dateStarted = today
    · rw [if_pos hd] at hf
      dsimp only at hf
      by_cases hcond : minutesUntilStart e.timeStart nowMs > 0
          ∧ minutesUntilStart e.timeStart nowMs ≤ minutesBefore
      · rw [if_pos hcond] at hf
        have h := Option.some.inj hf
        cases h
        exact ⟨he, hd, rfl, hcond.1, hcond.2⟩
      · rw [if_neg hcond] at hf
        exact absurd hf (Option.some_ne_none _).symm
    · rw [if_neg hd] at hf
      exact absurd hf (Option.some_ne_none _).symm
  · rintro ⟨he, hd, hmu, h1, h2⟩
    rw [hmu] at h1 h2
    refine ⟨ev, he, ?_⟩
    rw [if_pos hd]
    dsimp only
    rw [if_pos ⟨h1, h2⟩, hmu]

/-- C9: an evaluation of the notification checker includes exactly the
not-yet-dismissed events dated today whose (truncated) minute distance to
their start time is in `(0, 5]`, with `minutesUntil` equal to that distance;
dismissing an id adds it to the dismissed set, dismissal never removes ids,
and no evaluation against a dismissed set containing an id ever includes that
id again. -/
theorem notifications_spec (todayEvents : List ScheduleEvent) (today : String) (nowMs : Int)
    (dismissed : List String) :
    (∀ n : EventNotification,
        n ∈ checkNotificationsEval todayEvents today nowMs dismissed ↔
          n.event ∈ todayEvents ∧ n.event.dateStarted = today
          ∧ n.minutesUntil = minutesUntilStart n.event.timeStart nowMs
          ∧ 0 < n.minutesUntil ∧ n.minutesUntil ≤ 5
          ∧ dismissed.contains n.event.id = false)
    ∧ (∀ id, (dismissNotification dismissed id).contains id = true)
    ∧ (∀ id x, dismissed.contains x = true → (dismissNotification dismissed id).contains x = true)
    ∧ (∀ id, dismissed.contains id = true →
        ∀ m ∈ checkNotificationsEval todayEvents today nowMs dismissed, m.event.id ≠ id) := by
  have hmem : ∀ n : EventNotification,
      n ∈ checkNotificationsEval todayEvents today nowMs dismissed ↔
        n.event ∈ todayEvents ∧ n.event.dateStarted = today
        ∧ n.minutesUntil = minutesUntilStart n.event.timeStart nowMs
        ∧ 0 < n.minutesUntil ∧ n.minutesUntil ≤ 5
        ∧ dismissed.contains n.event.id = false := by
    intro n
    unfold checkNotificationsEval
    rw [List.mem_filter, mem_getUpcomingEvents]
    constructor
    · rintro ⟨⟨he, hd, hmu, h1, h2⟩, hkeep⟩
      refine ⟨he, hd, hmu, h1, h2, ?_⟩
      simpa using hkeep
    · rintro ⟨he, hd, hmu, h1, h2, hkeep⟩
      exact ⟨⟨he, hd, hmu, h1, h2⟩, by simpa using hkeep⟩
  refine ⟨hmem, ?_, ?_, ?_⟩
  · intro id
    unfold dismissNotification
    split_ifs with hin
    · exact hin
    · simp [List.elem_eq_mem]
  · intro id x hx
    unfold dismissNotification
    split_ifs with hin
    · exact hx
    · simp only [List.elem_eq_mem, decide_eq_true_eq] at hx ⊢
      exact List.mem_append_left _ hx
  · intro id hid m hm heq
    have hfalse := ((hmem m).mp hm).2.2.2.2.2
    rw [heq, hid] at hfalse
    cases hfalse

/-- Witness for C9: at 12:00 today, an undismissed event starting at 12:03
today is included with `minutesUntil = 3`. -/
theorem notifications_spec_witness :
    EventNotification.mk ⟨"e1", "Standup", "2024-05-07", "2024-05-07", "12:03", "12:30", none⟩ 3
      ∈ checkNotificationsEval
          [⟨"e1", "Standup", "2024-05-07", "2024-05-07", "12:03", "12:30", none⟩]
          "2024-05-07" 43200000 [] :=
  ((notifications_spec
        [⟨"e1", "Standup", "2024-05-07", "2024-05-07", "12:03", "12:30", none⟩]
        "2024-05-07" 43200000 []).1
      (EventNotification.mk ⟨"e1", "Standup", "2024-05-07", "2024-05-07", "12:03", "12:30", none⟩ 3)).mpr
    ⟨List.mem_singleton.mpr rfl, rfl, by decide, by decide, by decide, rfl⟩

/-- C1 (amended, v1 polling loop): a successful pull whose serialized document
equals the last-seen serialization leaves the whole store state (all four
collections and the marker) unchanged; a pull whose serialization differs
replaces the four collections with the remote values (absent collections
becoming `[]`, remote settings spread over the defaults) and updates the
marker to the new serialization. -/
theorem syncPullTick_spec (serialize : RemoteData → String) (s : SyncStateV1)
    (data : RemoteData) :
    (serialize data = s.lastServerUpdate → autoSyncTick serialize s data = s)
    ∧ (serialize data ≠ s.lastServerUpdate →
        (autoSyncTick serialize s data).events = data.events.getD []
        ∧ (autoSyncTick serialize s data).personnelStatuses = data.personnelStatuses.getD []
        ∧ (autoSyncTick serialize s data).projects = data.projects.getD []
        ∧ (autoSyncTick serialize s data).settings = mergeSettings defaultSettings data.settings
        ∧ (autoSyncTick serialize s data).lastServerUpdate = serialize data) := by
  constructor
  · intro heq
    simp [autoSyncTick, heq]
  · intro hne
    simp [autoSyncTick, hne]

/-- Witness for C1 (amended): with `serialize` constantly `"doc"`, a pull over
a marker `"doc"` is a no-op, and a pull over a different marker `""` installs
the remote collections and the new marker. -/
theorem syncPullTick_spec_witness :
    autoSyncTick (fun _ => "doc")
        ⟨[], [], [], defaultSettings, "doc"⟩ ⟨some [], some [], some [], none⟩
      = ⟨[], [], [], defaultSettings, "doc"⟩
    ∧ (autoSyncTick (fun _ => "doc")
        ⟨[], [], [], defaultSettings, ""⟩ ⟨some [], some [], some [], none⟩).lastServerUpdate
      = "doc" :=
  ⟨(syncPullTick_spec (fun _ => "doc") ⟨[], [], [], defaultSettings, "doc"⟩
      ⟨some [], some [], some [], none⟩).1 rfl,
   ((syncPullTick_spec (fun _ => "doc") ⟨[], [], [], defaultSettings, ""⟩
      ⟨some [], some [], some [], none⟩).2 (by decide)).2.2.2.2⟩

/-- C1 (counterexample, variant-A polling loop): `startAutoSync` in
`src/unnamed/part_001` calls `loadFromServer`, which replaces local state on
every successful pull with no last-seen comparison. Pulling the same remote
document twice (identical serialization) with a local edit in between
overwrites the edit: the second pull does not leave the local state
unchanged. -/
theorem syncPull_replaces_unconditionally :
    (loadFromServerApply ⟨some [], some [], some [], none⟩
        (addEventA ⟨"1", "Local edit", "2024-05-07", "2024-05-07", "09:00", "10:00", none⟩
          (loadFromServerApply ⟨some [], some [], some [], none⟩
            ⟨[], [], [], defaultSettingsA⟩))).events = []
    ∧ (addEventA ⟨"1", "Local edit", "2024-05-07", "2024-05-07", "09:00", "10:00", none⟩
        (loadFromServerApply ⟨some [], some [], some [], none⟩
          ⟨[], [], [], defaultSettingsA⟩)).events
      = [⟨"1", "Local edit", "2024-05-07", "2024-05-07", "09:00", "10:00", none⟩]
    ∧ loadFromServerApply ⟨some [], some [], some [], none⟩
        (addEventA ⟨"1", "Local edit", "2024-05-07", "2024-05-07", "09:00", "10:00", none⟩
          (loadFromServerApply ⟨some [], some [], some [], none⟩
            ⟨[], [], [], defaultSettingsA⟩))
      ≠ addEventA ⟨"1", "Local edit", "2024-05-07", "2024-05-07", "09:00", "10:00", none⟩
          (loadFromServerApply ⟨some [], some [], some [], none⟩
            ⟨[], [], [], defaultSettingsA⟩) := by
  refine ⟨rfl, rfl, ?_⟩
  intro h
  have := congrArg StoreStateA.events h
  simp [loadFromServerApply, addEventA] at this

/-- C7 (amended, v1 add-event form): submitting a non-all-day event whose end
time is not strictly after its start time (with a non-empty title, so the
title check passes) sets the error "End time must be after start time" and
leaves the event list unchanged. -/
theorem addEvent_rejects_end_before_start (title dateStarted timeStart timeEnd details : String)
    (isAllDay : Bool) (newId createdAt : String) (events : List ScheduleEventV1)
    (htitle : jsTrim title ≠ "") (hall : isAllDay = false) (hle : timeEnd ≤ timeStart) :
    addEventHandleSubmitV1 title dateStarted timeStart timeEnd details isAllDay newId createdAt
        events
      = (some "End time must be after start time", events) := by
  unfold addEventHandleSubmitV1
  rw [if_neg htitle, if_pos ⟨by simp [hall], hle⟩]

/-- Witness for C7 (amended): `timeStart = 09:00`, `timeEnd = 08:00`, not
all-day, title "Team Sync": rejected with the message, event list `[]`
unchanged. -/
theorem addEvent_rejects_end_before_start_witness :
    addEventHandleSubmitV1 "Team Sync" "2024-05-07" "09:00" "08:00" "" false "id1" "t1" []
      = (some "End time must be after start time", []) :=
  addEvent_rejects_end_before_start "Team Sync" "2024-05-07" "09:00" "08:00" "" false "id1" "t1" []
    (by decide) rfl
    (le_of_lt (by rw [String.lt_iff_toList_lt]; decide))

/-- C7 (counterexample, variant-A add-event form): `handleSubmit` in
`src/src/types/schedule.ts` lines 1462-1479 performs no end-time validation,
so submitting `timeStart = 09:00`, `timeEnd = 08:00` with all fields present
adds the event instead of rejecting it: the event list is not left
unchanged. -/
theorem addEvent_accepts_end_before_start :
    addEventHandleSubmitA "Team Sync" "2024-05-07" "2024-05-07" "09:00" "08:00" "" "id1" []
      = [⟨"id1", "Team Sync", "2024-05-07", "2024-05-07", "09:00", "08:00", some ""⟩]
    ∧ addEventHandleSubmitA "Team Sync" "2024-05-07" "2024-05-07" "09:00" "08:00" "" "id1" []
      ≠ [] := by
  refine ⟨by decide, by decide⟩
